import Mathlib

/-!
# Verification of the parallel incident-response workflow

Shallow embedding of the incident-response orchestrator core:
`core/state.py`, `core/config.py` and `workflows/parallel_workflow.py`.

Conventions of the embedding:
* Python floats are modelled as exact rationals (`ℚ`); `datetime` values are
  modelled as rational timestamps in seconds.
* Python dicts with string keys are modelled as association lists with
  insertion-order semantics (`dictInsert` overwrites in place, else appends),
  and dict rows whose key set is fixed are modelled as structures whose
  optional fields are `none` when the key is absent.
* A call into an external collaborator (agent) either returns a result dict or
  raises; this is modelled as `Except String AgentResult`, the `error` payload
  being `str(e)`.  Each `datetime.now()` / clock reading of a phase is a field
  of the run environment `Env`.
* `process_incident` is embedded as a total function from the run environment
  and the incident input to the returned summary, the final incident state and
  the trace of incident states after each mutating step, in program order.
  The Python `try`/`except` around the whole body is modelled by
  `Env.outer_fault`: a fault escaping the per-task isolation and reaching the
  outermost handler.
-/

namespace IncidentResponse

/-- Python `int(q)` on a rational: truncation toward zero. -/
def truncQ (q : ℚ) : ℤ := if 0 ≤ q then ⌊q⌋ else ⌈q⌉

/-- Round a rational to the nearest integer, ties to even
(the rounding used by Python's fixed-point float formatting). -/
def roundHalfEven (q : ℚ) : ℤ :=
  let f := ⌊q⌋
  let frac := q - (f : ℚ)
  if frac < 1/2 then f
  else if (1 : ℚ)/2 < frac then f + 1
  else if f % 2 = 0 then f else f + 1

/-- Python `f"{q:.2f}"`: render a rational with exactly two decimal places. -/
def format2 (q : ℚ) : String :=
  let n := roundHalfEven (q * 100)
  let m := n.natAbs
  let sign := if n < 0 then "-" else ""
  sign ++ toString (m / 100) ++ "." ++
    (if m % 100 < 10 then "0" else "") ++ toString (m % 100)

/-- Python-dict insertion into an association list: overwrite the existing
binding in place, otherwise append at the end. -/
def dictInsert {α : Type} (m : List (String × α)) (k : String) (v : α) :
    List (String × α) :=
  match m with
  | [] => [(k, v)]
  | (k', v') :: rest =>
      if k' = k then (k, v) :: rest else (k', v') :: dictInsert rest k v

/-- Python-dict lookup in an association list. -/
def dictGet {α : Type} (m : List (String × α)) (k : String) : Option α :=
  match m with
  | [] => none
  | (k', v) :: rest => if k' = k then some v else dictGet rest k

/-- The fields of an agent-result dict that the workflow core reads.
A key absent from the dict is `none`. -/
structure AgentResult where
  agent : Option String := none
  success : Option Bool := none
  confidence : Option ℚ := none
  health_score : Option ℚ := none
  pattern_confidence : Option ℚ := none
  remediation_confidence : Option ℚ := none
  communication_confidence : Option ℚ := none
  documentation_confidence : Option ℚ := none
  error : Option String := none
  timestamp : Option ℚ := none
  deriving DecidableEq

/-- The dict returned by `RemediationAgent.execute_remediation` as read by the
workflow (`.get('success', False)`), or the `{"success": False, "error": ...}`
fallback built at the call site. -/
structure ExecResult where
  success : Option Bool := none
  error : Option String := none
  deriving DecidableEq

/-- One entry of the incident state's append-only `errors` list
(see `add_error` in `core/state.py`). -/
structure ErrorEntry where
  timestamp : ℚ
  message : String
  agent : Option String
  deriving DecidableEq

/-- The incident-input dict fields read by `create_incident_state` and
`process_incident`; a key absent from the input is `none`. -/
structure IncidentData where
  incident_id : Option String := none
  service : Option String := none
  type : Option String := none
  description : Option String := none
  symptoms : Option (List String) := none
  severity : Option String := none
  metrics : Option (List (String × ℚ)) := none
  deriving DecidableEq

/-- The incident state dict built by `create_incident_state` in
`core/state.py`. -/
structure IncidentState where
  incident_id : String
  affected_service : String
  incident_type : String
  description : String
  symptoms : List String
  severity : String
  metrics : List (String × ℚ)
  created_at : ℚ
  updated_at : ℚ
  agent_analyses : List (String × AgentResult)
  overall_confidence : ℚ
  remediation_plan : List (String × String)
  status : String
  stage : String
  workflow_complete : Bool
  resolved_at : Option ℚ
  resolution_method : Option String
  resolution_time_minutes : Option ℤ
  escalation_reason : Option String
  errors : List ErrorEntry
  retry_count : ℕ
  deriving DecidableEq

/-- `create_incident_state` from `core/state.py`.  `genId` stands for the
`INC-<date>-<random8>` identifier generated when the input carries no truthy
`incident_id` (Python treats `None` and the empty string as falsy). -/
def create_incident_state (now : ℚ) (genId : String)
    (incident_data : IncidentData) : IncidentState :=
  let incident_id :=
    match incident_data.incident_id with
    | some s => if s = "" then genId else s
    | none => genId
  { incident_id := incident_id
    affected_service := incident_data.service.getD "unknown"
    incident_type := incident_data.type.getD "unknown"
    description := incident_data.description.getD "Unknown incident"
    symptoms := incident_data.symptoms.getD []
    severity := incident_data.severity.getD "P3"
    metrics := incident_data.metrics.getD []
    created_at := now
    updated_at := now
    agent_analyses := []
    overall_confidence := 0
    remediation_plan := []
    status := "active"
    stage := "initialized"
    workflow_complete := false
    resolved_at := none
    resolution_method := none
    resolution_time_minutes := none
    escalation_reason := none
    errors := []
    retry_count := 0 }

/-- `add_agent_result` from `core/state.py`: stamp the result with the current
time and the agent name, store it under the agent name, update
`updated_at`. -/
def add_agent_result (now : ℚ) (state : IncidentState) (agent_name : String)
    (result : AgentResult) : IncidentState :=
  let result := { result with timestamp := some now, agent := some agent_name }
  { state with
      agent_analyses := dictInsert state.agent_analyses agent_name result
      updated_at := now }

/-- `calculate_overall_confidence` from `core/state.py`: returns the computed
value together with the state after the call.  As in the source, the write-back
of `overall_confidence` happens only on the path that builds a non-empty list
of positive confidences; the two early returns leave the state untouched. -/
def calculate_overall_confidence (state : IncidentState) : ℚ × IncidentState :=
  if state.agent_analyses = [] then (0, state)
  else
    let detective_confidence :=
      (((dictGet state.agent_analyses "detective").getD {}).confidence).getD 0
    let diagnostics_health :=
      (((dictGet state.agent_analyses "diagnostics").getD {}).health_score).getD 0
    let historical_pattern :=
      (((dictGet state.agent_analyses "historical").getD {}).pattern_confidence).getD 0
    let confidences :=
      (if 0 < detective_confidence then [detective_confidence] else []) ++
      (if 0 < diagnostics_health then [diagnostics_health] else []) ++
      (if 0 < historical_pattern then [historical_pattern] else [])
    if confidences = [] then (0, state)
    else
      let overall_confidence := confidences.sum / (confidences.length : ℚ)
      (overall_confidence, { state with overall_confidence := overall_confidence })

/-- `mark_incident_resolved` from `core/state.py` (the `update_incident_state`
merge, which also refreshes `updated_at`, is inlined). -/
def mark_incident_resolved (now : ℚ) (state : IncidentState)
    (resolution_method : String) : IncidentState :=
  let resolution_time := truncQ ((now - state.created_at) / 60)
  { state with
      status := "resolved"
      stage := "resolved"
      resolved_at := some now
      resolution_method := some resolution_method
      resolution_time_minutes := some resolution_time
      workflow_complete := true
      updated_at := now }

/-- `mark_incident_escalated` from `core/state.py` (the `update_incident_state`
merge inlined). -/
def mark_incident_escalated (now : ℚ) (state : IncidentState)
    (escalation_reason : String) : IncidentState :=
  { state with
      status := "escalated"
      stage := "escalated"
      escalation_reason := some escalation_reason
      workflow_complete := true
      updated_at := now }

/-- `add_error` from `core/state.py`: append an error entry and refresh
`updated_at`. -/
def add_error (now : ℚ) (state : IncidentState) (error_message : String)
    (agent_name : Option String) : IncidentState :=
  { state with
      errors := state.errors ++
        [{ timestamp := now, message := error_message, agent := agent_name }]
      updated_at := now }

/-- Default value of `SystemConfig.auto_remediation_confidence_threshold`
from `core/config.py`. -/
def auto_remediation_confidence_threshold : ℚ := 6/10

/-- `ParallelIncidentWorkflow._should_auto_remediate`, parametrised by the
configured confidence threshold. -/
def should_auto_remediate (threshold : ℚ) (overall_confidence : ℚ)
    (remediation_confidence : ℚ) (severity : String) : Bool :=
  decide (threshold ≤ overall_confidence) &&
    decide ((7 : ℚ)/10 ≤ remediation_confidence) &&
    decide (severity ≠ "P0")

/-- `ParallelIncidentWorkflow._get_escalation_reason`, parametrised by the
configured confidence threshold. -/
def get_escalation_reason (threshold : ℚ) (overall_confidence : ℚ)
    (remediation_confidence : ℚ) (severity : String) : String :=
  if severity = "P0" then "P0 severity - requires human oversight"
  else if overall_confidence < threshold then
    "Low overall confidence (" ++ (format2 overall_confidence ++ ")")
  else if remediation_confidence < (7 : ℚ)/10 then
    "Low remediation confidence (" ++ (format2 remediation_confidence ++ ")")
  else "Unknown escalation reason"

/-- One run's collaborator outcomes and clock readings.  Each agent invocation
either returns a result dict (`Except.ok`) or raises (`Except.error`, carrying
`str(e)`).  `outer_fault` models a fault that escapes every per-task isolation
and reaches the outermost `try`/`except` of `process_incident`; the `t_` fields
are the clock readings used to stamp each phase's state updates. -/
structure Env where
  detective : Except String AgentResult
  diagnostics : Except String AgentResult
  historical : Except String AgentResult
  remediation : Except String AgentResult
  communication : Except String AgentResult
  remediation_execution : Except String ExecResult
  postmortem : Except String AgentResult
  outer_fault : Option String := none
  t_create : ℚ := 0
  t_parallel : ℚ := 0
  t_remediation : ℚ := 0
  t_communication : ℚ := 0
  t_decide : ℚ := 0
  t_postmortem : ℚ := 0

/-- The dict returned by `process_incident`; keys that a branch does not put
into the dict are `none`.  The wall-clock duration fields
(`workflow_time_seconds`, `parallel_time_seconds`) are real-time measurements
and are not modelled. -/
structure WorkflowSummary where
  incident_id : String
  status : String
  method : Option String := none
  success : Bool
  reason : Option String := none
  overall_confidence : Option ℚ := none
  agent_results : Option (List (String × AgentResult)) := none
  total_agents_used : Option ℕ := none
  error : Option String := none
  deriving DecidableEq

/-- The outcome of one `process_incident` run: the returned summary, the final
incident state, and the trace of incident-state values after each mutating
step, in program order. -/
structure WorkflowRun where
  summary : WorkflowSummary
  finalState : IncidentState
  trace : List IncidentState

/-- Fallback result built at line 90 of `workflows/parallel_workflow.py` when
the detective task raises. -/
def detective_fallback (e : String) : AgentResult :=
  { agent := some "detective", error := some e, success := some false
    confidence := some (1/2) }

/-- Fallback result for a raising diagnostics task (line 93). -/
def diagnostics_fallback (e : String) : AgentResult :=
  { agent := some "diagnostics", error := some e, success := some false
    health_score := some (1/2) }

/-- Fallback result for a raising historical task (line 96). -/
def historical_fallback (e : String) : AgentResult :=
  { agent := some "historical", error := some e, success := some false
    pattern_confidence := some (1/2) }

/-- Fallback result for a raising remediation-planning task (line 128). -/
def remediation_fallback (e : String) : AgentResult :=
  { agent := some "remediation", error := some e, success := some false
    remediation_confidence := some (3/10) }

/-- Fallback result for a raising communication task (line 143). -/
def communication_fallback (e : String) : AgentResult :=
  { agent := some "communication", error := some e, success := some false
    communication_confidence := some (1/2) }

/-- Fallback result for a raising post-mortem task (line 184). -/
def postmortem_fallback (e : String) : AgentResult :=
  { agent := some "postmortem", error := some e, success := some false
    documentation_confidence := some (1/2) }

/-- Fallback dict for a raising remediation execution (line 168). -/
def remediation_execution_fallback (e : String) : ExecResult :=
  { success := some false, error := some e }

/-- Convert a task outcome into the result the workflow works with: the value
on success, the call site's fallback dict on a raise. -/
def taskResult (outcome : Except String AgentResult)
    (fallback : String → AgentResult) : AgentResult :=
  match outcome with
  | .ok r => r
  | .error e => fallback e

/-- The detective result after the isolation at the `asyncio.gather` join. -/
def detective_result (env : Env) : AgentResult :=
  taskResult env.detective detective_fallback

/-- The diagnostics result after isolation. -/
def diagnostics_result (env : Env) : AgentResult :=
  taskResult env.diagnostics diagnostics_fallback

/-- The historical result after isolation. -/
def historical_result (env : Env) : AgentResult :=
  taskResult env.historical historical_fallback

/-- The remediation-planning result after isolation. -/
def remediation_result (env : Env) : AgentResult :=
  taskResult env.remediation remediation_fallback

/-- The communication-planning result after isolation. -/
def communication_result (env : Env) : AgentResult :=
  taskResult env.communication communication_fallback

/-- The post-mortem result after isolation. -/
def postmortem_result (env : Env) : AgentResult :=
  taskResult env.postmortem postmortem_fallback

/-- The remediation-execution outcome after isolation. -/
def remediation_execution_result (env : Env) : ExecResult :=
  match env.remediation_execution with
  | .ok r => r
  | .error e => remediation_execution_fallback e

/-- The incident state right after `create_incident_state`. -/
def stateCreated (env : Env) (d : IncidentData) (genId : String) :
    IncidentState :=
  create_incident_state env.t_create genId d

/-- The state after merging the detective result. -/
def stateDetective (env : Env) (d : IncidentData) (genId : String) :
    IncidentState :=
  add_agent_result env.t_parallel (stateCreated env d genId) "detective"
    (detective_result env)

/-- The state after merging the diagnostics result. -/
def stateDiagnostics (env : Env) (d : IncidentData) (genId : String) :
    IncidentState :=
  add_agent_result env.t_parallel (stateDetective env d genId) "diagnostics"
    (diagnostics_result env)

/-- The state after merging the historical result: the end of the parallel
phase. -/
def stateHistorical (env : Env) (d : IncidentData) (genId : String) :
    IncidentState :=
  add_agent_result env.t_parallel (stateDiagnostics env d genId) "historical"
    (historical_result env)

/-- The overall confidence computed after the parallel phase. -/
def overall_confidence_of (env : Env) (d : IncidentData) (genId : String) : ℚ :=
  (calculate_overall_confidence (stateHistorical env d genId)).1

/-- The state after the `calculate_overall_confidence` call. -/
def stateConfidence (env : Env) (d : IncidentData) (genId : String) :
    IncidentState :=
  (calculate_overall_confidence (stateHistorical env d genId)).2

/-- The state after merging the remediation-planning result. -/
def stateRemediation (env : Env) (d : IncidentData) (genId : String) :
    IncidentState :=
  add_agent_result env.t_remediation (stateConfidence env d genId)
    "remediation" (remediation_result env)

/-- The state after merging the communication-planning result. -/
def stateCommunication (env : Env) (d : IncidentData) (genId : String) :
    IncidentState :=
  add_agent_result env.t_communication (stateRemediation env d genId)
    "communication" (communication_result env)

/-- The remediation confidence the Decision Engine is given:
`remediation_result.get('remediation_confidence', 0)`. -/
def remediation_confidence_of (env : Env) : ℚ :=
  (remediation_result env).remediation_confidence.getD 0

/-- The Decision Engine invocation of phase 4: `_should_auto_remediate` on the
overall confidence, the remediation confidence and the state's severity. -/
def decision_of (threshold : ℚ) (env : Env) (d : IncidentData)
    (genId : String) : Bool :=
  should_auto_remediate threshold (overall_confidence_of env d genId)
    (remediation_confidence_of env) (stateCommunication env d genId).severity

/-- `ParallelIncidentWorkflow.process_incident` from
`workflows/parallel_workflow.py`, phase by phase.  (`self.metrics` only feeds
the instance counters updated by `_update_metrics` and is not part of the
returned summary or the incident state; it is not modelled.) -/
def process_incident (threshold : ℚ) (env : Env) (incident_data : IncidentData)
    (genId : String) : WorkflowRun :=
  let incident_id := incident_data.incident_id.getD "unknown"
  let s0 := stateCreated env incident_data genId
  match env.outer_fault with
  | some msg =>
      { summary := { incident_id := incident_id, status := "error"
                     success := false, error := some msg }
        finalState := s0
        trace := [s0] }
  | none =>
      let s1 := stateDetective env incident_data genId
      let s2 := stateDiagnostics env incident_data genId
      let s3 := stateHistorical env incident_data genId
      let overall_confidence := overall_confidence_of env incident_data genId
      let s4 := stateConfidence env incident_data genId
      let s5 := stateRemediation env incident_data genId
      let s6 := stateCommunication env incident_data genId
      if decision_of threshold env incident_data genId then
        if (remediation_execution_result env).success.getD false then
          let s7 := mark_incident_resolved env.t_decide s6
            "parallel_auto_remediation"
          let s8 := add_agent_result env.t_postmortem s7 "postmortem"
            (postmortem_result env)
          { summary := { incident_id := incident_id, status := "resolved"
                         method := some "parallel_auto_remediation"
                         success := true
                         overall_confidence := some overall_confidence
                         agent_results := some s8.agent_analyses
                         total_agents_used := some s8.agent_analyses.length }
            finalState := s8
            trace := [s0, s1, s2, s3, s4, s5, s6, s7, s8] }
        else
          let s7 := mark_incident_escalated env.t_decide s6
            "Remediation execution failed"
          { summary := { incident_id := incident_id, status := "escalated"
                         method := some "failed_remediation", success := false
                         overall_confidence := some overall_confidence
                         agent_results := some s7.agent_analyses }
            finalState := s7
            trace := [s0, s1, s2, s3, s4, s5, s6, s7] }
      else
        let reason := get_escalation_reason threshold overall_confidence
          (remediation_confidence_of env) s6.severity
        let s7 := mark_incident_escalated env.t_decide s6 reason
        { summary := { incident_id := incident_id, status := "escalated"
                       method := some "parallel_escalation", success := false
                       reason := some reason
                       overall_confidence := some overall_confidence
                       agent_results := some s7.agent_analyses }
          finalState := s7
          trace := [s0, s1, s2, s3, s4, s5, s6, s7] }

/-- Consecutive pairs of a list, used to state step invariants on traces. -/
def consecutivePairs {α : Type} (l : List α) : List (α × α) := l.zip l.tail

/-- Spec-side definition (from the specification's words, for comparison with
`calculate_overall_confidence`): the signals of the three concurrent analysis
tasks — detective `confidence`, diagnostics `health_score`, historical
`pattern_confidence` — with absent signals and signals exactly `0.0`
discarded. -/
def spec_analysis_signals (state : IncidentState) : List ℚ :=
  (([(dictGet state.agent_analyses "detective").bind (fun r => r.confidence),
     (dictGet state.agent_analyses "diagnostics").bind (fun r => r.health_score),
     (dictGet state.agent_analyses "historical").bind
       (fun r => r.pattern_confidence)].filterMap id).filter (fun x => x ≠ 0))

/-- Spec-side overall confidence: `0.0` when no signal remains, otherwise the
unweighted mean of the remaining signals. -/
def spec_overall_confidence (state : IncidentState) : ℚ :=
  let sigs := spec_analysis_signals state
  if sigs = [] then 0 else sigs.sum / (sigs.length : ℚ)

/-- A run in which every task succeeds with a confident result and remediation
execution succeeds (used as concrete input for several theorems). -/
def envAutoOk : Env :=
  { detective := .ok { confidence := some (8/10), success := some true }
    diagnostics := .ok { health_score := some (6/10), success := some true }
    historical := .ok { pattern_confidence := some (9/10), success := some true }
    remediation := .ok { remediation_confidence := some (8/10), success := some true }
    communication := .ok { communication_confidence := some (9/10), success := some true }
    remediation_execution := .ok { success := some true }
    postmortem := .ok { documentation_confidence := some (7/10), success := some true }
    t_create := 0, t_parallel := 10, t_remediation := 20
    t_communication := 30, t_decide := 125, t_postmortem := 130 }

/-- Same run, but remediation execution reports failure. -/
def envAutoFail : Env :=
  { envAutoOk with remediation_execution := .ok { success := some false } }

/-- The detective entry stored during the run `envAutoOk`. -/
def detAutoOk : AgentResult :=
  { agent := some "detective", success := some true, confidence := some (8/10),
    timestamp := some 10 }

/-- The diagnostics entry stored during the run `envAutoOk`. -/
def diaAutoOk : AgentResult :=
  { agent := some "diagnostics", success := some true,
    health_score := some (6/10), timestamp := some 10 }

/-- The historical entry stored during the run `envAutoOk`. -/
def hisAutoOk : AgentResult :=
  { agent := some "historical", success := some true,
    pattern_confidence := some (9/10), timestamp := some 10 }

/-- Same run, but the detective task and the remediation-planning task raise. -/
def envFaulty : Env :=
  { envAutoOk with detective := .error "crash", remediation := .error "boom" }

/-- Same run, but the communication-planning task raises. -/
def envCommDown : Env :=
  { envAutoOk with communication := .error "comm-down" }

/- ## Helper lemmas -/

theorem dictGet_insert_self {α : Type} (m : List (String × α)) (k : String)
    (v : α) : dictGet (dictInsert m k v) k = some v := by
  induction m with
  | nil => simp [dictInsert, dictGet]
  | cons p rest ih =>
    by_cases h : p.1 = k <;> simp [dictInsert, dictGet, h, ih]

theorem dictGet_insert_ne {α : Type} (m : List (String × α)) (k k' : String)
    (v : α) (h : k' ≠ k) : dictGet (dictInsert m k' v) k = dictGet m k := by
  induction m with
  | nil => simp [dictInsert, dictGet, h]
  | cons p rest ih =>
    by_cases hp : p.1 = k' <;> by_cases hk : p.1 = k <;>
      simp_all [dictInsert, dictGet]

theorem dictInsert_ne_nil {α : Type} (m : List (String × α)) (k : String)
    (v : α) : dictInsert m k v ≠ [] := by
  cases m with
  | nil => simp [dictInsert]
  | cons p rest => simp only [dictInsert]; split <;> simp

theorem append_head_ne (s t u : String) (c1 c2 : Char)
    (hs : s.data.head? = some c1) (hu : u.data.head? = some c2)
    (hne : c1 ≠ c2) : s ++ t ≠ u := by
  intro h
  apply hne
  have hd : s.data ++ t.data = u.data := by
    have h2 := congrArg String.data h
    simpa [String.data_append] using h2
  cases hse : s.data with
  | nil => simp [hse] at hs
  | cons c rest =>
    rw [hse] at hd
    rw [hse] at hs
    simp at hs
    rw [← hd] at hu
    simp at hu
    rw [← hs, ← hu]

theorem truncQ_eq_floor (q : ℚ) (h : 0 ≤ q) : truncQ q = ⌊q⌋ := by
  simp [truncQ, h]

@[simp] theorem add_agent_result_status (now : ℚ) (state : IncidentState)
    (k : String) (r : AgentResult) :
    (add_agent_result now state k r).status = state.status := rfl

@[simp] theorem add_agent_result_complete (now : ℚ) (state : IncidentState)
    (k : String) (r : AgentResult) :
    (add_agent_result now state k r).workflow_complete =
      state.workflow_complete := rfl

@[simp] theorem add_agent_result_severity (now : ℚ) (state : IncidentState)
    (k : String) (r : AgentResult) :
    (add_agent_result now state k r).severity = state.severity := rfl

@[simp] theorem add_agent_result_errors (now : ℚ) (state : IncidentState)
    (k : String) (r : AgentResult) :
    (add_agent_result now state k r).errors = state.errors := rfl

@[simp] theorem add_agent_result_created_at (now : ℚ) (state : IncidentState)
    (k : String) (r : AgentResult) :
    (add_agent_result now state k r).created_at = state.created_at := rfl

@[simp] theorem add_agent_result_analyses (now : ℚ) (state : IncidentState)
    (k : String) (r : AgentResult) :
    (add_agent_result now state k r).agent_analyses =
      dictInsert state.agent_analyses k
        { r with timestamp := some now, agent := some k } := rfl

/-- The state returned by `calculate_overall_confidence` is the input state
with, at most, the `overall_confidence` field replaced. -/
theorem calculate_snd_fields (state : IncidentState) :
    (calculate_overall_confidence state).2 =
      { state with overall_confidence :=
          (calculate_overall_confidence state).2.overall_confidence } := by
  unfold calculate_overall_confidence
  dsimp only
  split_ifs <;> rfl

@[simp] theorem calc_snd_status (state : IncidentState) :
    (calculate_overall_confidence state).2.status = state.status := by
  rw [calculate_snd_fields]

@[simp] theorem calc_snd_complete (state : IncidentState) :
    (calculate_overall_confidence state).2.workflow_complete =
      state.workflow_complete := by
  rw [calculate_snd_fields]

@[simp] theorem calc_snd_severity (state : IncidentState) :
    (calculate_overall_confidence state).2.severity = state.severity := by
  rw [calculate_snd_fields]

@[simp] theorem calc_snd_errors (state : IncidentState) :
    (calculate_overall_confidence state).2.errors = state.errors := by
  rw [calculate_snd_fields]

@[simp] theorem calc_snd_created_at (state : IncidentState) :
    (calculate_overall_confidence state).2.created_at = state.created_at := by
  rw [calculate_snd_fields]

@[simp] theorem calc_snd_analyses (state : IncidentState) :
    (calculate_overall_confidence state).2.agent_analyses =
      state.agent_analyses := by
  rw [calculate_snd_fields]

@[simp] theorem mark_resolved_status (now : ℚ) (state : IncidentState)
    (m : String) : (mark_incident_resolved now state m).status = "resolved" :=
  rfl

@[simp] theorem mark_resolved_complete (now : ℚ) (state : IncidentState)
    (m : String) :
    (mark_incident_resolved now state m).workflow_complete = true := rfl

@[simp] theorem mark_resolved_analyses (now : ℚ) (state : IncidentState)
    (m : String) :
    (mark_incident_resolved now state m).agent_analyses =
      state.agent_analyses := rfl

@[simp] theorem mark_resolved_errors (now : ℚ) (state : IncidentState)
    (m : String) :
    (mark_incident_resolved now state m).errors = state.errors := rfl

@[simp] theorem mark_escalated_status (now : ℚ) (state : IncidentState)
    (m : String) :
    (mark_incident_escalated now state m).status = "escalated" := rfl

@[simp] theorem mark_escalated_complete (now : ℚ) (state : IncidentState)
    (m : String) :
    (mark_incident_escalated now state m).workflow_complete = true := rfl

@[simp] theorem mark_escalated_analyses (now : ℚ) (state : IncidentState)
    (m : String) :
    (mark_incident_escalated now state m).agent_analyses =
      state.agent_analyses := rfl

@[simp] theorem mark_escalated_errors (now : ℚ) (state : IncidentState)
    (m : String) :
    (mark_incident_escalated now state m).errors = state.errors := rfl

@[simp] theorem mark_escalated_reason (now : ℚ) (state : IncidentState)
    (m : String) :
    (mark_incident_escalated now state m).escalation_reason = some m := rfl

@[simp] theorem add_agent_result_resolution_method (now : ℚ)
    (state : IncidentState) (k : String) (r : AgentResult) :
    (add_agent_result now state k r).resolution_method =
      state.resolution_method := rfl

@[simp] theorem add_agent_result_resolved_at (now : ℚ) (state : IncidentState)
    (k : String) (r : AgentResult) :
    (add_agent_result now state k r).resolved_at = state.resolved_at := rfl

@[simp] theorem add_agent_result_resolution_time (now : ℚ)
    (state : IncidentState) (k : String) (r : AgentResult) :
    (add_agent_result now state k r).resolution_time_minutes =
      state.resolution_time_minutes := rfl

@[simp] theorem add_agent_result_escalation_reason (now : ℚ)
    (state : IncidentState) (k : String) (r : AgentResult) :
    (add_agent_result now state k r).escalation_reason =
      state.escalation_reason := rfl

@[simp] theorem mark_resolved_method (now : ℚ) (state : IncidentState)
    (m : String) :
    (mark_incident_resolved now state m).resolution_method = some m := rfl

@[simp] theorem mark_resolved_resolved_at (now : ℚ) (state : IncidentState)
    (m : String) :
    (mark_incident_resolved now state m).resolved_at = some now := rfl

@[simp] theorem mark_resolved_time (now : ℚ) (state : IncidentState)
    (m : String) :
    (mark_incident_resolved now state m).resolution_time_minutes =
      some (truncQ ((now - state.created_at) / 60)) := rfl

@[simp] theorem mark_resolved_created_at (now : ℚ) (state : IncidentState)
    (m : String) :
    (mark_incident_resolved now state m).created_at = state.created_at := rfl

@[simp] theorem mark_escalated_created_at (now : ℚ) (state : IncidentState)
    (m : String) :
    (mark_incident_escalated now state m).created_at = state.created_at := rfl

@[simp] theorem stateCreated_status (env : Env) (d : IncidentData)
    (genId : String) : (stateCreated env d genId).status = "active" := rfl

@[simp] theorem stateCreated_complete (env : Env) (d : IncidentData)
    (genId : String) :
    (stateCreated env d genId).workflow_complete = false := rfl

@[simp] theorem stateCreated_errors (env : Env) (d : IncidentData)
    (genId : String) : (stateCreated env d genId).errors = [] := rfl

@[simp] theorem stateCreated_analyses (env : Env) (d : IncidentData)
    (genId : String) : (stateCreated env d genId).agent_analyses = [] := rfl

@[simp] theorem stateCreated_created_at (env : Env) (d : IncidentData)
    (genId : String) : (stateCreated env d genId).created_at = env.t_create :=
  rfl

/-- After the parallel phase of the run `envAutoOk` the task-results mapping
holds exactly the three analysis entries. -/
theorem analyses3_envAutoOk :
    (stateHistorical envAutoOk {} "INC-1").agent_analyses =
      [("detective", detAutoOk), ("diagnostics", diaAutoOk),
        ("historical", hisAutoOk)] := by
  simp [stateHistorical, stateDiagnostics, stateDetective, stateCreated,
    create_incident_state, add_agent_result, detective_result,
    diagnostics_result, historical_result, taskResult, envAutoOk, dictInsert,
    detAutoOk, diaAutoOk, hisAutoOk]

/-- In the fully successful run `envAutoOk` the overall confidence is the mean
of `0.8`, `0.6`, `0.9`. -/
theorem overall_envAutoOk :
    overall_confidence_of envAutoOk {} "INC-1" = 23/30 := by
  rw [overall_confidence_of, calculate_overall_confidence, analyses3_envAutoOk]
  simp [dictGet, detAutoOk, diaAutoOk, hisAutoOk]
  norm_num

/-- The severity of the incident state in runs built from the empty incident
input is the default `"P3"`. -/
theorem severity_default (env : Env) (genId : String) :
    (stateCommunication env {} genId).severity = "P3" := by
  simp [stateCommunication, stateRemediation, stateConfidence, stateHistorical,
    stateDiagnostics, stateDetective, stateCreated, create_incident_state]

/-- In the run `envAutoOk` the Decision Engine approves auto-remediation. -/
theorem decision_envAutoOk : decision_of (6/10) envAutoOk {} "INC-1" = true := by
  rw [decision_of, overall_envAutoOk, severity_default]
  simp only [should_auto_remediate, remediation_confidence_of,
    remediation_result, taskResult, envAutoOk, Bool.and_eq_true,
    decide_eq_true_eq]
  refine ⟨⟨by norm_num, by norm_num⟩, by decide⟩

/-- `envAutoFail` differs from `envAutoOk` only in the execution outcome, so
the decision is the same. -/
theorem decision_envAutoFail :
    decision_of (6/10) envAutoFail {} "INC-1" = true := decision_envAutoOk

/-- In the run `envFaulty` the remediation-planning task raised, so its
fallback confidence `0.3` is below `0.7` and the engine escalates. -/
theorem decision_envFaulty :
    decision_of (6/10) envFaulty {} "INC-1" = false := by
  rw [decision_of]
  simp only [should_auto_remediate, remediation_confidence_of,
    remediation_result, remediation_fallback, taskResult, envFaulty, envAutoOk]
  norm_num

/-- Lookup of the stored detective entry after phase 3. -/
theorem s6_get_detective (env : Env) (d : IncidentData) (genId : String) :
    dictGet (stateCommunication env d genId).agent_analyses "detective" =
      some { detective_result env with
             timestamp := some env.t_parallel, agent := some "detective" } := by
  simp [stateCommunication, stateRemediation, stateConfidence, stateHistorical,
    stateDiagnostics, stateDetective, stateCreated, create_incident_state,
    dictGet_insert_self, dictGet_insert_ne, dictGet]

/-- Lookup of the stored diagnostics entry after phase 3. -/
theorem s6_get_diagnostics (env : Env) (d : IncidentData) (genId : String) :
    dictGet (stateCommunication env d genId).agent_analyses "diagnostics" =
      some { diagnostics_result env with
             timestamp := some env.t_parallel, agent := some "diagnostics" } := by
  simp [stateCommunication, stateRemediation, stateConfidence, stateHistorical,
    stateDiagnostics, stateDetective, stateCreated, create_incident_state,
    dictGet_insert_self, dictGet_insert_ne, dictGet]

/-- Lookup of the stored historical entry after phase 3. -/
theorem s6_get_historical (env : Env) (d : IncidentData) (genId : String) :
    dictGet (stateCommunication env d genId).agent_analyses "historical" =
      some { historical_result env with
             timestamp := some env.t_parallel, agent := some "historical" } := by
  simp [stateCommunication, stateRemediation, stateConfidence, stateHistorical,
    stateDiagnostics, stateDetective, stateCreated, create_incident_state,
    dictGet_insert_self, dictGet_insert_ne, dictGet]

/-- Lookup of the stored remediation-planning entry after phase 3. -/
theorem s6_get_remediation (env : Env) (d : IncidentData) (genId : String) :
    dictGet (stateCommunication env d genId).agent_analyses "remediation" =
      some { remediation_result env with
             timestamp := some env.t_remediation, agent := some "remediation" } := by
  simp [stateCommunication, stateRemediation, stateConfidence, stateHistorical,
    stateDiagnostics, stateDetective, stateCreated, create_incident_state,
    dictGet_insert_self, dictGet_insert_ne, dictGet]

/-- Every task-results entry other than the post-mortem one is the same in the
final state as after phase 3. -/
theorem final_get_ne_postmortem (threshold : ℚ) (env : Env) (d : IncidentData)
    (genId : String) (k : String) (hf : env.outer_fault = none)
    (hk : k ≠ "postmortem") :
    dictGet (process_incident threshold env d genId).finalState.agent_analyses
        k =
      dictGet (stateCommunication env d genId).agent_analyses k := by
  unfold process_incident
  by_cases hd : decision_of threshold env d genId <;>
    by_cases hx : (remediation_execution_result env).success.getD false <;>
      simp [hf, hd, hx, dictGet_insert_ne, Ne.symm hk]

/-- The error list of the incident record is never touched by a run. -/
theorem final_errors_nil (threshold : ℚ) (env : Env) (d : IncidentData)
    (genId : String) :
    (process_incident threshold env d genId).finalState.errors = [] := by
  unfold process_incident
  cases hof : env.outer_fault with
  | some m => simp
  | none =>
    by_cases hd : decision_of threshold env d genId <;>
      by_cases hx : (remediation_execution_result env).success.getD false <;>
        simp [hd, hx, stateCommunication, stateRemediation, stateConfidence,
          stateHistorical, stateDiagnostics, stateDetective]

/-- When no fault reaches the outermost handler the run ends decided:
resolved or escalated. -/
theorem final_status_decided (threshold : ℚ) (env : Env) (d : IncidentData)
    (genId : String) (hf : env.outer_fault = none) :
    (process_incident threshold env d genId).summary.status = "resolved" ∨
    (process_incident threshold env d genId).summary.status = "escalated" := by
  unfold process_incident
  by_cases hd : decision_of threshold env d genId <;>
    by_cases hx : (remediation_execution_result env).success.getD false <;>
      simp [hf, hd, hx]

/-- Reading a numeric field through Python's `.get(name, {})``.get(key, 0.0)`
chain equals reading it through `Option.bind`. -/
theorem getD_field (o : Option AgentResult) (f : AgentResult → Option ℚ)
    (hf : f {} = none) : (f (o.getD {})).getD 0 = (o.bind f).getD 0 := by
  cases o <;> simp [hf]

/-- For a nonnegative optional signal, the code's `> 0` guard keeps exactly
the signals the specification keeps (present and not exactly `0.0`). -/
theorem signal_branch (o : Option ℚ) (h : ∀ x ∈ o, 0 ≤ x) :
    (if 0 < o.getD 0 then [o.getD 0] else []) =
      o.toList.filter (fun x => x ≠ 0) := by
  cases o with
  | none => simp
  | some v =>
    have hv : 0 ≤ v := h v rfl
    by_cases h0 : v = 0
    · simp [h0]
    · simp [lt_of_le_of_ne hv (Ne.symm h0), h0]

theorem filterMap_id_three (a b c : Option ℚ) :
    [a, b, c].filterMap id = a.toList ++ b.toList ++ c.toList := by
  cases a <;> cases b <;> cases c <;> rfl

/- ## Claim theorems -/

/-- C2: the embedding of `process_incident` is a total function — every run
terminates with a summary (the outermost `try`/`except` converts any escaping
fault into the `error` summary instead of re-raising) — and the status field
of that summary is always one of `resolved`, `escalated`, `error`. -/
theorem c2_process_status_total (threshold : ℚ) (env : Env)
    (d : IncidentData) (genId : String) :
    (process_incident threshold env d genId).summary.status = "resolved" ∨
    (process_incident threshold env d genId).summary.status = "escalated" ∨
    (process_incident threshold env d genId).summary.status = "error" := by
  unfold process_incident
  cases hof : env.outer_fault with
  | some m => simp
  | none =>
    by_cases hd : decision_of threshold env d genId <;>
      by_cases hx : (remediation_execution_result env).success.getD false <;>
        simp [hd, hx]

/-- C1: for overall confidence `c` and remediation confidence `r` in `[0,1]`
and severity `s` among `P0..P3`, the Decision Engine
(`_should_auto_remediate`, with configured threshold `threshold`) chooses
auto-remediation if and only if `s ≠ P0`, `c` is at least the threshold and
`r` is at least `0.7`; in every other case (`= false`) the workflow takes the
escalate branch. -/
theorem c1_auto_remediation_rule (threshold c r : ℚ) (s : String)
    (hc : 0 ≤ c ∧ c ≤ 1) (hr : 0 ≤ r ∧ r ≤ 1)
    (hs : s = "P0" ∨ s = "P1" ∨ s = "P2" ∨ s = "P3") :
    should_auto_remediate threshold c r s = true ↔
      (s ≠ "P0" ∧ threshold ≤ c ∧ (7 : ℚ)/10 ≤ r) := by
  simp only [should_auto_remediate, Bool.and_eq_true, decide_eq_true_eq]
  tauto

theorem c1_auto_remediation_rule_witness :
    should_auto_remediate (6/10) (8/10) (8/10) "P2" = true ↔
      ("P2" ≠ "P0" ∧ (6 : ℚ)/10 ≤ 8/10 ∧ (7 : ℚ)/10 ≤ 8/10) :=
  c1_auto_remediation_rule (6/10) (8/10) (8/10) "P2"
    ⟨by norm_num, by norm_num⟩ ⟨by norm_num, by norm_num⟩
    (Or.inr (Or.inr (Or.inl rfl)))

/-- C6 (amended): whenever the auto-remediate branch is taken and remediation
execution reports failure, the final workflow status is `escalated`, the
record's escalation reason is the code's string
`"Remediation execution failed"`, and the final status is never `resolved`. -/
theorem c6_failed_execution_escalates (threshold : ℚ) (env : Env)
    (d : IncidentData) (genId : String)
    (hf : env.outer_fault = none)
    (hd : decision_of threshold env d genId = true)
    (hx : (remediation_execution_result env).success.getD false = false) :
    (process_incident threshold env d genId).summary.status = "escalated" ∧
    (process_incident threshold env d genId).finalState.status = "escalated" ∧
    (process_incident threshold env d genId).finalState.escalation_reason =
      some "Remediation execution failed" ∧
    (process_incident threshold env d genId).summary.status ≠ "resolved" := by
  unfold process_incident
  simp [hf, hd, hx]

theorem c6_failed_execution_escalates_witness :
    (process_incident (6/10) envAutoFail {} "INC-1").summary.status =
      "escalated" ∧
    (process_incident (6/10) envAutoFail {} "INC-1").finalState.status =
      "escalated" ∧
    (process_incident (6/10) envAutoFail {} "INC-1").finalState.escalation_reason =
      some "Remediation execution failed" ∧
    (process_incident (6/10) envAutoFail {} "INC-1").summary.status ≠
      "resolved" :=
  c6_failed_execution_escalates (6/10) envAutoFail {} "INC-1" rfl
    decision_envAutoFail rfl

/-- C6 (counterexample to the claim as stated): in the concrete run
`envAutoFail` the auto-remediate branch is taken, execution reports failure,
and the recorded escalation reason is `"Remediation execution failed"` — not
the claim's lower-case string `"remediation execution failed"`. -/
theorem c6_reason_case_counterexample :
    decision_of (6/10) envAutoFail {} "INC-1" = true ∧
    (process_incident (6/10) envAutoFail {} "INC-1").finalState.escalation_reason =
      some "Remediation execution failed" ∧
    (process_incident (6/10) envAutoFail {} "INC-1").finalState.escalation_reason ≠
      some "remediation execution failed" := by
  have hd := decision_envAutoFail
  have hof : envAutoFail.outer_fault = none := rfl
  have hx : (remediation_execution_result envAutoFail).success.getD false =
      false := rfl
  refine ⟨hd, ?_, ?_⟩ <;>
    · unfold process_incident
      simp [hof, hd, hx]

/-- C9: two runs that are identical except for the communication-planning
task's outcome (faulting or succeeding, any signal) produce the same Decision
Engine choice and the same final workflow status, both in the summary and in
the record; the communication outcome is recorded in the task-results mapping
but never changes the status. -/
theorem c9_communication_noninterference (threshold : ℚ) (d : IncidentData)
    (genId : String) (env : Env) (comm : Except String AgentResult) :
    decision_of threshold { env with communication := comm } d genId =
      decision_of threshold env d genId ∧
    (process_incident threshold { env with communication := comm } d
        genId).summary.status =
      (process_incident threshold env d genId).summary.status ∧
    (process_incident threshold { env with communication := comm } d
        genId).finalState.status =
      (process_incident threshold env d genId).finalState.status ∧
    (env.outer_fault = none →
      dictGet (process_incident threshold { env with communication := comm } d
          genId).finalState.agent_analyses "communication" =
        some { communication_result { env with communication := comm } with
                 timestamp := some env.t_communication
                 agent := some "communication" }) := by
  obtain ⟨det, diag, hist, rem, c0, exec, post, outf, t1, t2, t3, t4, t5, t6⟩ :=
    env
  dsimp only
  have hdec : decision_of threshold
        ⟨det, diag, hist, rem, comm, exec, post, outf, t1, t2, t3, t4, t5, t6⟩
        d genId =
      decision_of threshold
        ⟨det, diag, hist, rem, c0, exec, post, outf, t1, t2, t3, t4, t5, t6⟩
        d genId := rfl
  have hexec : remediation_execution_result
        ⟨det, diag, hist, rem, comm, exec, post, outf, t1, t2, t3, t4, t5,
          t6⟩ =
      remediation_execution_result
        ⟨det, diag, hist, rem, c0, exec, post, outf, t1, t2, t3, t4, t5,
          t6⟩ := rfl
  refine ⟨hdec, ?_⟩
  unfold process_incident
  cases outf with
  | some m => simp [stateCreated, create_incident_state]
  | none =>
    rw [hdec, hexec]
    by_cases hd : decision_of threshold
        ⟨det, diag, hist, rem, c0, exec, post, none, t1, t2, t3, t4, t5, t6⟩
        d genId <;>
      by_cases hx : (remediation_execution_result
          ⟨det, diag, hist, rem, c0, exec, post, none, t1, t2, t3, t4, t5,
            t6⟩).success.getD false <;>
        simp [hd, hx, stateCommunication, communication_result,
          dictGet_insert_self, dictGet_insert_ne]

/-- C8 (amended): when remediation execution reports success, the record is
marked resolved with resolution method `"parallel_auto_remediation"` (not the
claim's `"auto_remediation"`), the resolution timestamp is set, and
`resolution_time_minutes` is the whole-minute floor of (resolved timestamp −
created timestamp); the documentation (post-mortem) task then runs and its
result is merged, and even a faulting post-mortem task leaves the status
`resolved`. -/
theorem c8_resolved_metadata (threshold : ℚ) (env : Env) (d : IncidentData)
    (genId : String)
    (hf : env.outer_fault = none)
    (hd : decision_of threshold env d genId = true)
    (hx : (remediation_execution_result env).success.getD false = true)
    (ht : env.t_create ≤ env.t_decide) :
    (process_incident threshold env d genId).finalState.status = "resolved" ∧
    (process_incident threshold env d genId).summary.status = "resolved" ∧
    (process_incident threshold env d genId).finalState.resolution_method =
      some "parallel_auto_remediation" ∧
    (process_incident threshold env d genId).finalState.resolved_at =
      some env.t_decide ∧
    (process_incident threshold env d genId).finalState.resolution_time_minutes =
      some ⌊(env.t_decide - env.t_create) / 60⌋ ∧
    dictGet (process_incident threshold env d genId).finalState.agent_analyses
        "postmortem" =
      some { postmortem_result env with
             timestamp := some env.t_postmortem, agent := some "postmortem" } ∧
    (∀ e : String,
      (process_incident threshold { env with postmortem := Except.error e } d
          genId).finalState.status = "resolved") := by
  have h60 : (0 : ℚ) ≤ (env.t_decide - env.t_create) / 60 :=
    div_nonneg (sub_nonneg.mpr ht) (by norm_num)
  have hfloor := truncQ_eq_floor _ h60
  have hd' : ∀ e : String,
      decision_of threshold
          { env with postmortem := Except.error e, outer_fault := none } d
          genId =
        true := fun _ => hd
  have hx' : ∀ e : String,
      (remediation_execution_result
          { env with postmortem := Except.error e,
                     outer_fault := none }).success.getD false =
        true := fun _ => hx
  unfold process_incident
  simp [hf, hd, hx, hd', hx', hfloor, dictGet_insert_self,
    stateCommunication, stateRemediation, stateConfidence, stateHistorical,
    stateDiagnostics, stateDetective]

theorem c8_resolved_metadata_witness :
    (process_incident (6/10) envAutoOk {} "INC-1").finalState.status =
      "resolved" ∧
    (process_incident (6/10) envAutoOk {} "INC-1").summary.status =
      "resolved" ∧
    (process_incident (6/10) envAutoOk {} "INC-1").finalState.resolution_method =
      some "parallel_auto_remediation" ∧
    (process_incident (6/10) envAutoOk {} "INC-1").finalState.resolved_at =
      some envAutoOk.t_decide ∧
    (process_incident (6/10) envAutoOk {}
        "INC-1").finalState.resolution_time_minutes =
      some ⌊(envAutoOk.t_decide - envAutoOk.t_create) / 60⌋ ∧
    dictGet (process_incident (6/10) envAutoOk {}
        "INC-1").finalState.agent_analyses "postmortem" =
      some { postmortem_result envAutoOk with
             timestamp := some envAutoOk.t_postmortem,
             agent := some "postmortem" } ∧
    (∀ e : String,
      (process_incident (6/10) { envAutoOk with postmortem := Except.error e }
          {} "INC-1").finalState.status = "resolved") :=
  c8_resolved_metadata (6/10) envAutoOk {} "INC-1" rfl decision_envAutoOk rfl
    (by norm_num [envAutoOk])

/-- C8 (counterexample to the claim as stated): in the successful concrete run
`envAutoOk` the recorded resolution method is `"parallel_auto_remediation"`,
not the claim's `"auto_remediation"`. -/
theorem c8_method_counterexample :
    (process_incident (6/10) envAutoOk {} "INC-1").finalState.status =
      "resolved" ∧
    (process_incident (6/10) envAutoOk {} "INC-1").finalState.resolution_method =
      some "parallel_auto_remediation" ∧
    (process_incident (6/10) envAutoOk {} "INC-1").finalState.resolution_method ≠
      some "auto_remediation" := by
  have hd := decision_envAutoOk
  have hof : envAutoOk.outer_fault = none := rfl
  have hx : (remediation_execution_result envAutoOk).success.getD false =
      true := rfl
  unfold process_incident
  simp [hof, hd, hx]

/-- C4 (amended): each wrapped task invocation converts a raised fault —
never propagating it — into a failure result stored in the task-results
mapping: fallback signal `0.5` for the three parallel analysis tasks but
`0.3` for the remediation-planning task, with the fault text recorded in the
result's `error` field.  The incident record's error list is not touched
(`add_error` is never called by the workflow), and the run still reaches the
Deciding phase. -/
theorem c4_fault_isolation (threshold : ℚ) (env : Env) (d : IncidentData)
    (genId : String) (hf : env.outer_fault = none) :
    (∀ e, env.detective = Except.error e →
      dictGet (process_incident threshold env d genId).finalState.agent_analyses
          "detective" =
        some { detective_fallback e with timestamp := some env.t_parallel }) ∧
    (∀ e, env.diagnostics = Except.error e →
      dictGet (process_incident threshold env d genId).finalState.agent_analyses
          "diagnostics" =
        some { diagnostics_fallback e with timestamp := some env.t_parallel }) ∧
    (∀ e, env.historical = Except.error e →
      dictGet (process_incident threshold env d genId).finalState.agent_analyses
          "historical" =
        some { historical_fallback e with timestamp := some env.t_parallel }) ∧
    (∀ e, env.remediation = Except.error e →
      dictGet (process_incident threshold env d genId).finalState.agent_analyses
          "remediation" =
        some { remediation_fallback e with
               timestamp := some env.t_remediation }) ∧
    (process_incident threshold env d genId).finalState.errors = [] ∧
    ((process_incident threshold env d genId).summary.status = "resolved" ∨
      (process_incident threshold env d genId).summary.status =
        "escalated") := by
  refine ⟨?_, ?_, ?_, ?_, final_errors_nil threshold env d genId,
    final_status_decided threshold env d genId hf⟩
  · intro e he
    rw [final_get_ne_postmortem threshold env d genId "detective" hf
      (by decide), s6_get_detective]
    simp [detective_result, taskResult, he, detective_fallback]
  · intro e he
    rw [final_get_ne_postmortem threshold env d genId "diagnostics" hf
      (by decide), s6_get_diagnostics]
    simp [diagnostics_result, taskResult, he, diagnostics_fallback]
  · intro e he
    rw [final_get_ne_postmortem threshold env d genId "historical" hf
      (by decide), s6_get_historical]
    simp [historical_result, taskResult, he, historical_fallback]
  · intro e he
    rw [final_get_ne_postmortem threshold env d genId "remediation" hf
      (by decide), s6_get_remediation]
    simp [remediation_result, taskResult, he, remediation_fallback]

theorem c4_fault_isolation_witness :
    (∀ e, envFaulty.detective = Except.error e →
      dictGet (process_incident (6/10) envFaulty {}
          "INC-1").finalState.agent_analyses "detective" =
        some { detective_fallback e with
               timestamp := some envFaulty.t_parallel }) ∧
    (∀ e, envFaulty.diagnostics = Except.error e →
      dictGet (process_incident (6/10) envFaulty {}
          "INC-1").finalState.agent_analyses "diagnostics" =
        some { diagnostics_fallback e with
               timestamp := some envFaulty.t_parallel }) ∧
    (∀ e, envFaulty.historical = Except.error e →
      dictGet (process_incident (6/10) envFaulty {}
          "INC-1").finalState.agent_analyses "historical" =
        some { historical_fallback e with
               timestamp := some envFaulty.t_parallel }) ∧
    (∀ e, envFaulty.remediation = Except.error e →
      dictGet (process_incident (6/10) envFaulty {}
          "INC-1").finalState.agent_analyses "remediation" =
        some { remediation_fallback e with
               timestamp := some envFaulty.t_remediation }) ∧
    (process_incident (6/10) envFaulty {} "INC-1").finalState.errors = [] ∧
    ((process_incident (6/10) envFaulty {} "INC-1").summary.status =
        "resolved" ∨
      (process_incident (6/10) envFaulty {} "INC-1").summary.status =
        "escalated") :=
  c4_fault_isolation (6/10) envFaulty {} "INC-1" rfl

/-- C4 (counterexample to the claim as stated): in the concrete run
`envFaulty` the remediation-planning task raises `"boom"`, yet its stored
failure result carries the fallback signal `0.3` — not the claim's fixed
`0.5` — and the incident record's error list stays empty even though the
detective task raised too, so no error entry naming a task was appended. -/
theorem c4_fallback_counterexample :
    envFaulty.remediation = Except.error "boom" ∧
    envFaulty.detective = Except.error "crash" ∧
    (dictGet (process_incident (6/10) envFaulty {}
        "INC-1").finalState.agent_analyses "remediation").map
      (fun r => r.remediation_confidence) = some (some (3/10)) ∧
    (process_incident (6/10) envFaulty {} "INC-1").finalState.errors = [] := by
  refine ⟨rfl, rfl, ?_, final_errors_nil (6/10) envFaulty {} "INC-1"⟩
  rw [final_get_ne_postmortem (6/10) envFaulty {} "INC-1" "remediation" rfl
    (by decide), s6_get_remediation]
  simp [remediation_result, taskResult, remediation_fallback,
    show envFaulty.remediation = Except.error "boom" from rfl]

/-- C3: for every task-results mapping whose three analysis signals (detective
`confidence`, diagnostics `health_score`, historical `pattern_confidence`) lie
in `[0,1]` when present, the computed overall confidence equals the spec-side
value: the unweighted mean of those signals after discarding absent signals
and signals exactly `0.0`, and `0.0` when none remains.  Moreover entries
stored under any other task name (remediation, communication, documentation)
never change the value. -/
theorem c3_confidence_aggregation (state : IncidentState)
    (hdet : ∀ x ∈ (dictGet state.agent_analyses "detective").bind
      (fun r => r.confidence), 0 ≤ x ∧ x ≤ 1)
    (hdia : ∀ x ∈ (dictGet state.agent_analyses "diagnostics").bind
      (fun r => r.health_score), 0 ≤ x ∧ x ≤ 1)
    (hhis : ∀ x ∈ (dictGet state.agent_analyses "historical").bind
      (fun r => r.pattern_confidence), 0 ≤ x ∧ x ≤ 1) :
    (calculate_overall_confidence state).1 = spec_overall_confidence state ∧
    (∀ (k : String) (r : AgentResult) (t : ℚ),
      k ≠ "detective" → k ≠ "diagnostics" → k ≠ "historical" →
      (calculate_overall_confidence (add_agent_result t state k r)).1 =
        (calculate_overall_confidence state).1) := by
  have g1 := getD_field (dictGet state.agent_analyses "detective")
    (fun r => r.confidence) rfl
  have g2 := getD_field (dictGet state.agent_analyses "diagnostics")
    (fun r => r.health_score) rfl
  have g3 := getD_field (dictGet state.agent_analyses "historical")
    (fun r => r.pattern_confidence) rfl
  have e1 := signal_branch ((dictGet state.agent_analyses "detective").bind
    (fun r => r.confidence)) (fun x hx => (hdet x hx).1)
  have e2 := signal_branch ((dictGet state.agent_analyses "diagnostics").bind
    (fun r => r.health_score)) (fun x hx => (hdia x hx).1)
  have e3 := signal_branch ((dictGet state.agent_analyses "historical").bind
    (fun r => r.pattern_confidence)) (fun x hx => (hhis x hx).1)
  constructor
  · by_cases hA : state.agent_analyses = []
    · simp [calculate_overall_confidence, spec_overall_confidence,
        spec_analysis_signals, hA, dictGet]
    · rw [spec_overall_confidence, spec_analysis_signals, filterMap_id_three]
      unfold calculate_overall_confidence
      rw [if_neg hA]
      dsimp only
      rw [g1, g2, g3, e1, e2, e3, List.filter_append, List.filter_append]
      split <;> rfl
  · intro k r t hk1 hk2 hk3
    by_cases hA : state.agent_analyses = []
    · unfold calculate_overall_confidence
      rw [add_agent_result_analyses,
        if_neg (dictInsert_ne_nil state.agent_analyses k _), if_pos hA]
      dsimp only
      rw [dictGet_insert_ne _ _ _ _ hk1, dictGet_insert_ne _ _ _ _ hk2,
        dictGet_insert_ne _ _ _ _ hk3, hA]
      simp [dictGet]
    · unfold calculate_overall_confidence
      rw [add_agent_result_analyses,
        if_neg (dictInsert_ne_nil state.agent_analyses k _), if_neg hA]
      dsimp only
      rw [dictGet_insert_ne _ _ _ _ hk1, dictGet_insert_ne _ _ _ _ hk2,
        dictGet_insert_ne _ _ _ _ hk3]
      repeat' split
      all_goals rfl

theorem c3_confidence_aggregation_witness :
    (calculate_overall_confidence (stateHistorical envAutoOk {} "INC-1")).1 =
      spec_overall_confidence (stateHistorical envAutoOk {} "INC-1") ∧
    (∀ (k : String) (r : AgentResult) (t : ℚ),
      k ≠ "detective" → k ≠ "diagnostics" → k ≠ "historical" →
      (calculate_overall_confidence
          (add_agent_result t (stateHistorical envAutoOk {} "INC-1") k r)).1 =
        (calculate_overall_confidence
          (stateHistorical envAutoOk {} "INC-1")).1) :=
  c3_confidence_aggregation (stateHistorical envAutoOk {} "INC-1")
    (by rw [analyses3_envAutoOk]
        simp [dictGet, detAutoOk]
        norm_num)
    (by rw [analyses3_envAutoOk]
        simp [dictGet, diaAutoOk]
        norm_num)
    (by rw [analyses3_envAutoOk]
        simp [dictGet, hisAutoOk]
        norm_num)

/-- C7 (amended): in every trace of record states produced by a run, the
completion flag is true exactly when the status is `resolved`, `escalated` or
`error` (the record's status in fact never becomes `error`); and once the flag
is true, the only further change of the run is the post-mortem merge, which
touches only the task-results mapping and the `updated_at` stamp — every
other field is left as it was. -/
theorem c7_completion_flag (threshold : ℚ) (env : Env) (d : IncidentData)
    (genId : String) :
    (∀ s ∈ (process_incident threshold env d genId).trace,
      (s.workflow_complete = true ↔
        (s.status = "resolved" ∨ s.status = "escalated" ∨
          s.status = "error"))) ∧
    (∀ p ∈ consecutivePairs (process_incident threshold env d genId).trace,
      p.1.workflow_complete = true →
        p.2 = { p.1 with agent_analyses := p.2.agent_analyses,
                         updated_at := p.2.updated_at }) := by
  unfold process_incident
  cases hof : env.outer_fault with
  | some m =>
    constructor
    · intro s hs
      simp at hs
      subst hs
      simp
    · intro p hp
      simp [consecutivePairs] at hp
  | none =>
    by_cases hd : decision_of threshold env d genId <;>
      by_cases hx : (remediation_execution_result env).success.getD false <;>
        simp only [hd, hx, if_true, if_false, Bool.false_eq_true, ite_true,
          ite_false] <;>
        constructor
    · intro s hs
      simp at hs
      rcases hs with rfl | rfl | rfl | rfl | rfl | rfl | rfl | rfl | rfl <;>
        simp [stateDetective, stateDiagnostics, stateHistorical,
          stateConfidence, stateRemediation, stateCommunication]
    · intro p hp
      simp [consecutivePairs] at hp
      rcases hp with rfl | rfl | rfl | rfl | rfl | rfl | rfl | rfl <;>
        simp [stateDetective, stateDiagnostics, stateHistorical,
          stateConfidence, stateRemediation, stateCommunication,
          add_agent_result]
    · intro s hs
      simp at hs
      rcases hs with rfl | rfl | rfl | rfl | rfl | rfl | rfl | rfl <;>
        simp [stateDetective, stateDiagnostics, stateHistorical,
          stateConfidence, stateRemediation, stateCommunication]
    · intro p hp
      simp [consecutivePairs] at hp
      rcases hp with rfl | rfl | rfl | rfl | rfl | rfl | rfl <;>
        simp [stateDetective, stateDiagnostics, stateHistorical,
          stateConfidence, stateRemediation, stateCommunication,
          add_agent_result]
    · intro s hs
      simp at hs
      rcases hs with rfl | rfl | rfl | rfl | rfl | rfl | rfl | rfl <;>
        simp [stateDetective, stateDiagnostics, stateHistorical,
          stateConfidence, stateRemediation, stateCommunication]
    · intro p hp
      simp [consecutivePairs] at hp
      rcases hp with rfl | rfl | rfl | rfl | rfl | rfl | rfl <;>
        simp [stateDetective, stateDiagnostics, stateHistorical,
          stateConfidence, stateRemediation, stateCommunication,
          add_agent_result]
    · intro s hs
      simp at hs
      rcases hs with rfl | rfl | rfl | rfl | rfl | rfl | rfl | rfl <;>
        simp [stateDetective, stateDiagnostics, stateHistorical,
          stateConfidence, stateRemediation, stateCommunication]
    · intro p hp
      simp [consecutivePairs] at hp
      rcases hp with rfl | rfl | rfl | rfl | rfl | rfl | rfl <;>
        simp [stateDetective, stateDiagnostics, stateHistorical,
          stateConfidence, stateRemediation, stateCommunication,
          add_agent_result]

theorem c7_completion_flag_witness :
    (∀ s ∈ (process_incident (6/10) envAutoOk {} "INC-1").trace,
      (s.workflow_complete = true ↔
        (s.status = "resolved" ∨ s.status = "escalated" ∨
          s.status = "error"))) ∧
    (∀ p ∈ consecutivePairs (process_incident (6/10) envAutoOk {}
        "INC-1").trace,
      p.1.workflow_complete = true →
        p.2 = { p.1 with agent_analyses := p.2.agent_analyses,
                         updated_at := p.2.updated_at }) :=
  c7_completion_flag (6/10) envAutoOk {} "INC-1"

/-- C7 (counterexample to the claim as stated): in the concrete successful
run `envAutoOk`, the eighth trace state (the record just after it is marked
resolved) has its completion flag set and no post-mortem entry, while the next
state of the same run has gained a post-mortem entry — so the record is
mutated after the completion flag became true. -/
theorem c7_mutation_counterexample :
    ((process_incident (6/10) envAutoOk {} "INC-1").trace.get? 7).map
      (fun s => s.workflow_complete) = some true ∧
    ((process_incident (6/10) envAutoOk {} "INC-1").trace.get? 7).map
      (fun s => dictGet s.agent_analyses "postmortem") = some none ∧
    ((process_incident (6/10) envAutoOk {} "INC-1").trace.get? 8).map
      (fun s => dictGet s.agent_analyses "postmortem") =
      some (some { postmortem_result envAutoOk with
                   timestamp := some envAutoOk.t_postmortem,
                   agent := some "postmortem" }) ∧
    some (some { postmortem_result envAutoOk with
                 timestamp := some envAutoOk.t_postmortem,
                 agent := some "postmortem" }) ≠
      (some none :
        Option (Option AgentResult)) := by
  have hd := decision_envAutoOk
  have hof : envAutoOk.outer_fault = none := rfl
  have hx : (remediation_execution_result envAutoOk).success.getD false =
      true := rfl
  unfold process_incident
  simp [hof, hd, hx, stateCommunication, stateRemediation, stateConfidence,
    stateHistorical, stateDiagnostics, stateDetective, dictGet_insert_self,
    dictGet_insert_ne, dictGet]

theorem c9_communication_noninterference_witness :
    decision_of (6/10) envCommDown {} "INC-1" =
      decision_of (6/10) envAutoOk {} "INC-1" ∧
    (process_incident (6/10) envCommDown {} "INC-1").summary.status =
      (process_incident (6/10) envAutoOk {} "INC-1").summary.status ∧
    (process_incident (6/10) envCommDown {} "INC-1").finalState.status =
      (process_incident (6/10) envAutoOk {} "INC-1").finalState.status ∧
    (envAutoOk.outer_fault = none →
      dictGet (process_incident (6/10) envCommDown {}
          "INC-1").finalState.agent_analyses "communication" =
        some { communication_result envCommDown with
               timestamp := some envAutoOk.t_communication,
               agent := some "communication" }) :=
  c9_communication_noninterference (6/10) {} "INC-1" envAutoOk
    (Except.error "comm-down")

/-- C5 (amended): on every input on which the Decision Engine escalates, the
escalation reason is chosen by first match: severity `P0` gives
`"P0 severity - requires human oversight"`; otherwise `c` below the threshold
gives `"Low overall confidence (c)"` with `c` formatted to two decimals;
otherwise `r < 0.7` gives `"Low remediation confidence (r)"` likewise;
otherwise the fallback `"Unknown escalation reason"`. -/
theorem c5_escalation_reason_first_match (threshold c r : ℚ) (s : String)
    (h : should_auto_remediate threshold c r s = false) :
    (s = "P0" →
      get_escalation_reason threshold c r s =
        "P0 severity - requires human oversight") ∧
    (s ≠ "P0" → c < threshold →
      get_escalation_reason threshold c r s =
        "Low overall confidence (" ++ (format2 c ++ ")")) ∧
    (s ≠ "P0" → ¬ c < threshold → r < (7 : ℚ)/10 →
      get_escalation_reason threshold c r s =
        "Low remediation confidence (" ++ (format2 r ++ ")")) ∧
    (s ≠ "P0" → ¬ c < threshold → ¬ r < (7 : ℚ)/10 →
      get_escalation_reason threshold c r s = "Unknown escalation reason") := by
  refine ⟨?_, ?_, ?_, ?_⟩
  · intro hp
    simp [get_escalation_reason, hp]
  · intro hp hct
    simp [get_escalation_reason, hp, hct]
  · intro hp hct hr7
    simp [get_escalation_reason, hp, hct, hr7]
  · intro hp hct hr7
    simp [get_escalation_reason, hp, hct, hr7]

theorem c5_escalation_reason_first_match_witness :
    ("P0" = "P0" →
      get_escalation_reason (6/10) (8/10) (8/10) "P0" =
        "P0 severity - requires human oversight") ∧
    ("P0" ≠ "P0" → (8:ℚ)/10 < 6/10 →
      get_escalation_reason (6/10) (8/10) (8/10) "P0" =
        "Low overall confidence (" ++ (format2 (8/10) ++ ")")) ∧
    ("P0" ≠ "P0" → ¬ (8:ℚ)/10 < 6/10 → (8:ℚ)/10 < 7/10 →
      get_escalation_reason (6/10) (8/10) (8/10) "P0" =
        "Low remediation confidence (" ++ (format2 (8/10) ++ ")")) ∧
    ("P0" ≠ "P0" → ¬ (8:ℚ)/10 < 6/10 → ¬ (8:ℚ)/10 < 7/10 →
      get_escalation_reason (6/10) (8/10) (8/10) "P0" =
        "Unknown escalation reason") :=
  c5_escalation_reason_first_match (6/10) (8/10) (8/10) "P0"
    (by simp [should_auto_remediate])

/-- C5 (counterexample to the claim as stated): at `c = 0.8`, `r = 0.8`,
severity `P0`, the engine escalates but the reason the code produces is the
string `"P0 severity - requires human oversight"`, not the claim's
`"severity P0 requires human oversight"`. -/
theorem c5_reason_string_counterexample :
    should_auto_remediate (6/10) (8/10) (8/10) "P0" = false ∧
    get_escalation_reason (6/10) (8/10) (8/10) "P0" =
      "P0 severity - requires human oversight" ∧
    get_escalation_reason (6/10) (8/10) (8/10) "P0" ≠
      "severity P0 requires human oversight" := by
  refine ⟨by simp [should_auto_remediate], by simp [get_escalation_reason], ?_⟩
  simp only [get_escalation_reason, if_pos rfl]
  decide

/-- C10: whenever `_should_auto_remediate` returns false (with `c`, `r` in
`[0,1]` and any severity string), `_get_escalation_reason` returns one of the
three specific reasons and never the fallback `"Unknown escalation reason"`:
the fallback branch is unreachable on the escalate path. -/
theorem c10_fallback_unreachable (threshold c r : ℚ) (s : String)
    (hc : 0 ≤ c ∧ c ≤ 1) (hr : 0 ≤ r ∧ r ≤ 1)
    (h : should_auto_remediate threshold c r s = false) :
    (get_escalation_reason threshold c r s =
        "P0 severity - requires human oversight" ∨
      get_escalation_reason threshold c r s =
        "Low overall confidence (" ++ (format2 c ++ ")") ∨
      get_escalation_reason threshold c r s =
        "Low remediation confidence (" ++ (format2 r ++ ")")) ∧
    get_escalation_reason threshold c r s ≠ "Unknown escalation reason" := by
  have h' : ¬ threshold ≤ c ∨ ¬ (7 : ℚ)/10 ≤ r ∨ s = "P0" := by
    by_contra hcon
    push_neg at hcon
    simp [should_auto_remediate, hcon.1, hcon.2.1, hcon.2.2] at h
  unfold get_escalation_reason
  by_cases hp : s = "P0"
  · rw [if_pos hp]
    exact ⟨Or.inl rfl, by decide⟩
  · rw [if_neg hp]
    by_cases hct : c < threshold
    · rw [if_pos hct]
      exact ⟨Or.inr (Or.inl rfl),
        append_head_ne _ _ _ 'L' 'U' rfl rfl (by decide)⟩
    · rw [if_neg hct]
      by_cases hr7 : r < (7 : ℚ)/10
      · rw [if_pos hr7]
        exact ⟨Or.inr (Or.inr rfl),
          append_head_ne _ _ _ 'L' 'U' rfl rfl (by decide)⟩
      · exfalso
        rcases h' with h1 | h1 | h1
        · exact hct (not_le.mp h1)
        · exact hr7 (not_le.mp h1)
        · exact hp h1

theorem c10_fallback_unreachable_witness :
    (get_escalation_reason (6/10) (1/2) (9/10) "P2" =
        "P0 severity - requires human oversight" ∨
      get_escalation_reason (6/10) (1/2) (9/10) "P2" =
        "Low overall confidence (" ++ (format2 (1/2) ++ ")") ∨
      get_escalation_reason (6/10) (1/2) (9/10) "P2" =
        "Low remediation confidence (" ++ (format2 (9/10) ++ ")")) ∧
    get_escalation_reason (6/10) (1/2) (9/10) "P2" ≠
      "Unknown escalation reason" :=
  c10_fallback_unreachable (6/10) (1/2) (9/10) "P2"
    ⟨by norm_num, by norm_num⟩ ⟨by norm_num, by norm_num⟩
    (by simp [should_auto_remediate]; norm_num)

end IncidentResponse
